import Mathlib

/-!
Shallow embedding of the paginated-fetch / batched-load pipeline in
`src/main.py` (Polygon tickers → Snowflake), together with theorems that
settle the specification claims about it.

Conventions of the embedding:
  * Python dict records become association lists over a `Value` type covering
    the JSON scalar shapes the data model declares (string, boolean, integer,
    null); `dict.get(field, None)` becomes `recGet`.
  * Machine floats (`backoff = 2.0`, sleep durations) are modelled as `ℚ`;
    every arithmetic the code performs on them is exact, so `ℚ` is faithful.
  * Network effects are modelled by oracles: `safe_request` receives the
    HTTP result of each attempt as a function `Nat → HttpResult`, and the
    pagination walker receives the outcome of each successive page fetch as a
    `List FetchResult` (`FetchResult.fail` models `safe_request` raising
    `SystemExit` after exhausting its retries).
  * The Snowflake session is modelled by the trace of events the loader
    emits (successful sink operations plus warning/error log events), and a
    transactional table semantics `tableAfter` that folds that trace.
-/

/-- Scalar values a ticker record field can hold (JSON shapes of the data
model). `null` doubles as Python `None`, which is also what an absent field
resolves to. -/
inductive Value where
  | null : Value
  | str : String → Value
  | int : Int → Value
  | bool : Bool → Value
deriving DecidableEq, Repr

/-- A raw ticker record: a Python dict, as an association list. -/
abbrev Record := List (String × Value)

/-- Embeds `ticker_dict.get(field, None)`: first binding of the key, or
null when the key is absent. -/
def recGet (r : Record) (k : String) : Value :=
  match r.find? (fun p => p.1 == k) with
  | some p => p.2
  | none => Value.null

/-- Python truthiness of a `Value` (`if value` in the cik coercion):
None, the empty string, 0 and False are falsy. -/
def pyTruthy : Value → Bool
  | Value.null => false
  | Value.str s => !(s == "")
  | Value.int n => n != 0
  | Value.bool b => b

/-- Characters `int(str)` strips before parsing (ASCII whitespace). -/
def isPyWhitespace (c : Char) : Bool :=
  c == ' ' || c == '\t' || c == '\n' || c == '\r'

/-- Digits of a decimal literal folded into a natural number. -/
def digitsToNat (ds : List Char) : Nat :=
  ds.foldl (fun acc d => acc * 10 + (d.toNat - 48)) 0

/-- Embeds Python `int(s)` on a string: strip surrounding whitespace, an
optional sign, then a nonempty run of decimal digits; anything else raises
`ValueError`, modelled as `none`. (Numeric-literal underscores and non-ASCII
digits, which the real builtin also accepts, do not occur in this data set
and are not modelled.) -/
def pyIntOfString (s : String) : Option Int :=
  let t := ((s.toList.dropWhile isPyWhitespace).reverse.dropWhile
      isPyWhitespace).reverse
  match t with
  | [] => none
  | c :: cs =>
    let signed : Bool × List Char :=
      if c == '-' then (true, cs)
      else if c == '+' then (false, cs) else (false, c :: cs)
    if signed.2 ≠ [] ∧ signed.2.all Char.isDigit then
      some (if signed.1 then -(digitsToNat signed.2 : Int)
            else (digitsToNat signed.2 : Int))
    else none

/-- Embeds Python `int(value)` on a truthy record value: strings parse as
decimal integers (`ValueError`, i.e. `none`, when malformed), integers pass
through, booleans become 0 or 1. -/
def pyIntOfValue : Value → Option Int
  | Value.str s => pyIntOfString s
  | Value.int n => some n
  | Value.bool b => some (if b then 1 else 0)
  | Value.null => none

/-- The `API_KEY_TO_SQL_COLUMN` mapping of `main.py`: Polygon field name to
Snowflake column name, in dict insertion order. -/
def API_KEY_TO_SQL_COLUMN : List (String × String) :=
  [("ticker", "ticker"), ("name", "company_name"), ("market", "market"),
   ("locale", "locale"), ("primary_exchange", "primary_exchange"),
   ("type", "Ticker_Type"), ("active", "active"),
   ("currency_name", "currency_name"), ("cik", "cik"),
   ("composite_figi", "composite_figi"),
   ("share_class_figi", "share_class_figi"),
   ("last_updated_utc", "last_updated_utc")]

/-- The `EXAMPLE_TICKER_KEYS` list: iteration order of the field mapping. -/
def EXAMPLE_TICKER_KEYS : List String := API_KEY_TO_SQL_COLUMN.map Prod.fst

/-- Embeds the cik branch of the row-building loop:
`value = int(value) if value else None`, with `ValueError` caught and a
warning logged. Returns the output value and whether a warning was logged. -/
def coerceCik (v : Value) : Value × Bool :=
  if pyTruthy v then
    match pyIntOfValue v with
    | some n => (Value.int n, false)
    | none => (Value.null, true)
  else (Value.null, false)

/-- One iteration of the inner row-building loop of `write_to_snowflake`:
look the field up (null when absent) and apply the cik coercion when the
field is `cik`. Returns the output value and whether a warning was logged. -/
def transformField (r : Record) (field : String) : Value × Bool :=
  let value := recGet r field
  if field == "cik" then coerceCik value else (value, false)

/-- The row built for one ticker record, in `EXAMPLE_TICKER_KEYS` order,
paired with whether any coercion warning was logged for the record. -/
def transformRecord (r : Record) : List Value × Bool :=
  let pairs := EXAMPLE_TICKER_KEYS.map (transformField r)
  (pairs.map Prod.fst, pairs.any Prod.snd)

/-- A page payload as `safe_request` returns it: the optional `results`
record list and the optional `next_url` continuation reference. -/
structure Payload where
  results : Option (List Record)
  next_url : Option String
deriving DecidableEq, Repr

/-- Outcome of one HTTP GET attempt inside `safe_request`: a response
(status code, optional `Retry-After` header, parsed JSON body) or a
`requests.exceptions.RequestException`. -/
inductive HttpResult where
  | response (status : Nat) (retryAfter : Option String) (body : Payload)
  | exn
deriving DecidableEq

/-- Whether an attempt outcome is a 200 response (the only case in which
`safe_request` returns). -/
def isOk200 : HttpResult → Bool
  | HttpResult.response status _ _ => status == 200
  | HttpResult.exn => false

/-- The `SystemExit` raised by `safe_request` after exhausting its attempts;
its message carries the URL and the retry budget. -/
structure FetchError where
  url : String
  retries : Nat
deriving DecidableEq, Repr

/-- The linear backoff of `safe_request`: `backoff * attempt` seconds before
the next attempt (attempts numbered from 1). -/
def linBackoff (backoff : ℚ) (attempt : Nat) : ℚ := backoff * attempt

/-- Wait computed by the 429 branch of `safe_request`: start from the linear
backoff `backoff * attempt`, then overwrite it with `int(Retry-After)` when
the header is present and parses (`TypeError`/`ValueError` are swallowed,
keeping the linear default). -/
def wait429 (backoff : ℚ) (attempt : Nat) (retryAfterHeader : Option String) :
    ℚ :=
  match retryAfterHeader with
  | none => linBackoff backoff attempt
  | some s =>
    match pyIntOfString s with
    | some n => (n : ℚ)
    | none => linBackoff backoff attempt

/-- The claim C2 wait policy as the specification words it: the server hint
is used only when it parses as a POSITIVE integer, else the linear backoff.
Kept separate from `wait429` (which embeds the code) for comparison. -/
def wait429_claimed (backoff : ℚ) (attempt : Nat)
    (retryAfterHeader : Option String) : ℚ :=
  match retryAfterHeader with
  | none => linBackoff backoff attempt
  | some s =>
    match pyIntOfString s with
    | some n => if 0 < n then (n : ℚ) else linBackoff backoff attempt
    | none => linBackoff backoff attempt

/-- The attempt loop of `safe_request`. `http a` is the outcome of attempt
`a`; `attempt` is the current 1-based attempt number and `fuel` the number
of loop iterations left (`retries - attempt + 1` at every call). Returns
the result (page payload, or the `FetchError` raised after the loop), the
list of waits slept between attempts, and the number of attempts made. -/
def safeRequestGo (url : String) (http : Nat → HttpResult) (retries : Nat)
    (backoff : ℚ) : Nat → Nat → (Except FetchError Payload × List ℚ × Nat)
  | _, 0 => (Except.error ⟨url, retries⟩, [], 0)
  | attempt, fuel + 1 =>
    match http attempt with
    | HttpResult.response status ra body =>
      if status == 200 then (Except.ok body, [], 1)
      else
        let wait := if status == 429 then wait429 backoff attempt ra
                    else linBackoff backoff attempt
        let rest := safeRequestGo url http retries backoff (attempt + 1) fuel
        (rest.1, wait :: rest.2.1, rest.2.2 + 1)
    | HttpResult.exn =>
      let wait := linBackoff backoff attempt
      let rest := safeRequestGo url http retries backoff (attempt + 1) fuel
      (rest.1, wait :: rest.2.1, rest.2.2 + 1)

/-- Embeds `safe_request(url, ..., retries, backoff)`: run the attempt loop
`for attempt in range(1, retries + 1)` over the oracle of attempt
outcomes. -/
def safe_request (url : String) (http : Nat → HttpResult) (retries : Nat)
    (backoff : ℚ) : Except FetchError Payload × List ℚ × Nat :=
  safeRequestGo url http retries backoff 1 retries

/-- Outcome of one `safe_request` call as the pagination walker sees it:
a payload, or the `SystemExit` escape after exhausted retries. -/
inductive FetchResult where
  | ok (data : Payload)
  | fail
deriving DecidableEq, Repr

/-- The `while data.get("next_url")` loop of `collect_tickers`. `data` is
the payload of the page just processed, `tickers` the records accumulated so
far and `fetches` the number of `safe_request` calls made so far; `rest`
supplies the outcome of each further fetch in order. Returns the final
ticker list and total fetch count, or `none` when the oracle runs out while
a continuation reference is still pending (an environment the embedding
leaves unspecified). -/
def collectLoop : Payload → List Record → Nat → List FetchResult →
    Option (List Record × Nat)
  | data, tickers, fetches, [] =>
    match data.next_url with
    | none => some (tickers, fetches)
    | some _ => none
  | data, tickers, fetches, r :: rest' =>
    match data.next_url with
    | none => some (tickers, fetches)
    | some _ =>
      match r with
      | FetchResult.fail => some (tickers, fetches + 1)
      | FetchResult.ok d =>
        match d.results with
        | none => some (tickers, fetches + 1)
        | some rs => collectLoop d (tickers ++ rs) (fetches + 1) rest'

/-- Embeds `collect_tickers()`: abort with no records when the API key is
unset; fetch the first page (aborting with no records when it fails); seed
the accumulator from its `results` when present; then run the pagination
loop. The `Nat` component counts `safe_request` calls. -/
def collect_tickers (apiKeySet : Bool) (first : FetchResult)
    (rest : List FetchResult) : Option (List Record × Nat) :=
  if apiKeySet = false then some ([], 0)
  else
    match first with
    | FetchResult.fail => some ([], 1)
    | FetchResult.ok data =>
      let tickers := match data.results with
        | some rs => rs
        | none => []
      collectLoop data tickers 1 rest

/-- A transformed row, as handed to `executemany`. -/
abbrev Row := List Value

/-- The sink operations `write_to_snowflake` performs, as recorded in its
event trace (only operations that succeeded are recorded). -/
inductive SinkOp where
  | connect
  | truncate
  | insertBatch (batch : List Row)
  | commit
  | close
deriving DecidableEq

/-- Trace events of one `write_to_snowflake` run: successful sink operations
plus the warning/error log lines the claims are about. -/
inductive Event where
  | op (o : SinkOp)
  | warnNoTickers
  | errMissingVars (names : List String)
  | errLoad (msg : String)
deriving DecidableEq

/-- The `SNOWFLAKE_CONFIG` dict: every connection parameter is an optional
environment value. -/
structure SnowflakeConfig where
  account : Option String
  user : Option String
  password : Option String
  warehouse : Option String
  database : Option String
  schema : Option String
  role : Option String
deriving DecidableEq

/-- Python falsiness of an optional environment string: unset, or empty. -/
def pyFalsyEnv : Option String → Bool
  | none => true
  | some s => s == ""

/-- `SNOWFLAKE_CONFIG.items()` in dict insertion order. -/
def configItems (c : SnowflakeConfig) : List (String × Option String) :=
  [("account", c.account), ("user", c.user), ("password", c.password),
   ("warehouse", c.warehouse), ("database", c.database),
   ("schema", c.schema), ("role", c.role)]

/-- The `missing_vars` computation of `write_to_snowflake`: names of falsy
config entries, plus a marker when the table name itself is falsy. -/
def missingVars (c : SnowflakeConfig) (table : String) : List String :=
  let ms := ((configItems c).filter (fun p => pyFalsyEnv p.2)).map Prod.fst
  if table == "" then ms ++ ["SNOWFLAKE_TABLE (or default is missing)"]
  else ms

/-- The `batch_size = 500` of the bulk-insert loop. -/
def batch_size : Nat := 500

/-- Embeds `for i in range(0, len(l), bs): l[i:i+bs]`, the batching of
`data_to_insert`. (`bs = 0`, which Python would reject in `range`, is mapped
to no batches; the code only ever uses `bs = 500`.) -/
def chunkList (bs : Nat) : List α → List (List α)
  | [] => []
  | a :: l =>
    if _h : bs = 0 then []
    else (a :: l).take bs :: chunkList bs ((a :: l).drop bs)
termination_by l => l.length
decreasing_by
  simp only [List.length_drop, List.length_cons]
  omega

/-- Fault injected into one loader run: where (if anywhere) the Snowflake
session raises, and with which underlying error detail. `failInsertAt k`
fails the k-th `executemany` call. -/
inductive SinkFailure where
  | noFail
  | failConnect (msg : String)
  | failTruncate (msg : String)
  | failInsertAt (k : Nat) (msg : String)
  | failCommit (msg : String)
deriving DecidableEq

/-- The transformed rows `data_to_insert` built from the ticker list. -/
def dataToInsert (tickers : List Record) : List Row :=
  tickers.map (fun t => (transformRecord t).1)

/-- Embeds `write_to_snowflake(tickers)` as the trace of events of one run
under the injected sink fault: the empty-input and missing-config early
returns, then connect / truncate / batched executemany / commit guarded by
the try-except (which logs the underlying error detail and aborts), with
`conn.close()` in the finally block whenever a connection was acquired. -/
def write_to_snowflake (cfg : SnowflakeConfig) (table : String)
    (tickers : List Record) (fault : SinkFailure) : List Event :=
  if tickers = [] then [Event.warnNoTickers]
  else
    let missing := missingVars cfg table
    if missing ≠ [] then [Event.errMissingVars missing]
    else
      let batches := chunkList batch_size (dataToInsert tickers)
      match fault with
      | SinkFailure.failConnect msg => [Event.errLoad msg]
      | SinkFailure.failTruncate msg =>
        [Event.op SinkOp.connect, Event.errLoad msg, Event.op SinkOp.close]
      | SinkFailure.failInsertAt k msg =>
        if k < batches.length then
          [Event.op SinkOp.connect, Event.op SinkOp.truncate] ++
            (batches.take k).map (fun b => Event.op (SinkOp.insertBatch b)) ++
            [Event.errLoad msg, Event.op SinkOp.close]
        else
          [Event.op SinkOp.connect, Event.op SinkOp.truncate] ++
            batches.map (fun b => Event.op (SinkOp.insertBatch b)) ++
            [Event.op SinkOp.commit, Event.op SinkOp.close]
      | SinkFailure.failCommit msg =>
        [Event.op SinkOp.connect, Event.op SinkOp.truncate] ++
          batches.map (fun b => Event.op (SinkOp.insertBatch b)) ++
          [Event.errLoad msg, Event.op SinkOp.close]
      | SinkFailure.noFail =>
        [Event.op SinkOp.connect, Event.op SinkOp.truncate] ++
          batches.map (fun b => Event.op (SinkOp.insertBatch b)) ++
          [Event.op SinkOp.commit, Event.op SinkOp.close]

/-- Transactional state of the destination table: the committed contents and
the session's working (uncommitted) contents. -/
structure TableState where
  committed : List Row
  working : List Row
deriving DecidableEq

/-- Effect of one trace event on the table, assuming the sink honors the
transaction boundary: truncate empties the working copy, an insert batch
appends to it, commit publishes it; everything else (logs, connect, close)
leaves the table alone, and uncommitted work is discarded at close. -/
def applyEvent (s : TableState) : Event → TableState
  | Event.op SinkOp.truncate => { s with working := [] }
  | Event.op (SinkOp.insertBatch b) => { s with working := s.working ++ b }
  | Event.op SinkOp.commit => { committed := s.working, working := s.working }
  | _ => s

/-- Committed table contents after a run's event trace, starting from
committed contents `t0`. -/
def tableAfter (events : List Event) (t0 : List Row) : List Row :=
  (events.foldl applyEvent { committed := t0, working := t0 }).committed

/-- The load stage as a function on table contents: the committed contents
after one fault-free `write_to_snowflake` run over `tickers`. -/
def loadStage (cfg : SnowflakeConfig) (table : String)
    (tickers : List Record) (t0 : List Row) : List Row :=
  tableAfter (write_to_snowflake cfg table tickers SinkFailure.noFail) t0

theorem transformRecord_unfold (r : Record) :
    transformRecord r =
      ([recGet r "ticker", recGet r "name", recGet r "market",
        recGet r "locale", recGet r "primary_exchange", recGet r "type",
        recGet r "active", recGet r "currency_name",
        (coerceCik (recGet r "cik")).1, recGet r "composite_figi",
        recGet r "share_class_figi", recGet r "last_updated_utc"],
       (coerceCik (recGet r "cik")).2) := by
  simp [transformRecord, transformField, EXAMPLE_TICKER_KEYS,
    API_KEY_TO_SQL_COLUMN, List.any]

theorem chunkList_flatten_aux (bs : Nat) (hbs : bs ≠ 0) :
    ∀ (n : Nat) (l : List α), l.length ≤ n → (chunkList bs l).flatten = l := by
  intro n
  induction n with
  | zero =>
    intro l hl
    cases l with
    | nil => simp [chunkList]
    | cons a t => simp at hl
  | succ n ih =>
    intro l hl
    cases l with
    | nil => simp [chunkList]
    | cons a t =>
      rw [chunkList, dif_neg hbs, List.flatten_cons]
      rw [ih ((a :: t).drop bs)
        (by simp only [List.length_drop, List.length_cons] at hl ⊢; omega)]
      exact List.take_append_drop bs (a :: t)

theorem chunkList_flatten (bs : Nat) (hbs : bs ≠ 0) (l : List α) :
    (chunkList bs l).flatten = l :=
  chunkList_flatten_aux bs hbs l.length l le_rfl

theorem foldl_applyEvent_inserts (batches : List (List Row)) :
    ∀ c w : List Row,
      (batches.map (fun b => Event.op (SinkOp.insertBatch b))).foldl
          applyEvent ⟨c, w⟩ = ⟨c, w ++ batches.flatten⟩ := by
  induction batches with
  | nil => intro c w; simp
  | cons b bs ih =>
    intro c w
    simp only [List.map_cons, List.foldl_cons]
    rw [show applyEvent ⟨c, w⟩ (Event.op (SinkOp.insertBatch b)) =
        (⟨c, w ++ b⟩ : TableState) from rfl]
    rw [ih]
    simp

theorem tableAfter_success_trace (batches : List (List Row)) (t0 : List Row) :
    tableAfter ([Event.op SinkOp.connect, Event.op SinkOp.truncate] ++
        batches.map (fun b => Event.op (SinkOp.insertBatch b)) ++
        [Event.op SinkOp.commit, Event.op SinkOp.close]) t0 =
      batches.flatten := by
  simp only [tableAfter, List.foldl_append, List.foldl_cons, List.foldl_nil]
  rw [show applyEvent (applyEvent ⟨t0, t0⟩ (Event.op SinkOp.connect))
      (Event.op SinkOp.truncate) = (⟨t0, []⟩ : TableState) from rfl]
  rw [foldl_applyEvent_inserts]
  rfl

theorem loadStage_eq (cfg : SnowflakeConfig) (table : String)
    (tickers : List Record) (t0 : List Row)
    (h1 : tickers ≠ []) (h2 : missingVars cfg table = []) :
    loadStage cfg table tickers t0 = dataToInsert tickers := by
  unfold loadStage write_to_snowflake
  rw [if_neg h1, if_neg (by simp [h2])]
  simp only [h2]
  rw [tableAfter_success_trace]
  exact chunkList_flatten batch_size (by decide) (dataToInsert tickers)

theorem safeRequestGo_attempts_le (url : String) (http : Nat → HttpResult)
    (retries : Nat) (backoff : ℚ) :
    ∀ (fuel attempt : Nat),
      (safeRequestGo url http retries backoff attempt fuel).2.2 ≤ fuel := by
  intro fuel
  induction fuel with
  | zero => intro attempt; simp [safeRequestGo]
  | succ fuel ih =>
    intro attempt
    have hrec := ih (attempt + 1)
    cases hh : http attempt with
    | response status ra body =>
      simp only [safeRequestGo, hh]
      split
      · exact Nat.succ_le_succ (Nat.zero_le fuel)
      · exact Nat.succ_le_succ hrec
    | exn =>
      simp only [safeRequestGo, hh]
      exact Nat.succ_le_succ hrec


theorem safeRequestGo_allFail (url : String) (http : Nat → HttpResult)
    (retries : Nat) (backoff : ℚ) :
    ∀ (fuel attempt : Nat),
      (∀ a, attempt ≤ a → a < attempt + fuel → isOk200 (http a) = false) →
      (safeRequestGo url http retries backoff attempt fuel).1 =
        Except.error ⟨url, retries⟩ := by
  intro fuel
  induction fuel with
  | zero => intro attempt _; rfl
  | succ fuel ih =>
    intro attempt h
    have ha : isOk200 (http attempt) = false := h attempt le_rfl (by omega)
    have hrec := ih (attempt + 1) (fun a h1 h2 => h a (by omega) (by omega))
    cases hh : http attempt with
    | response status ra body =>
      rw [hh] at ha
      simp only [isOk200] at ha
      simp [safeRequestGo, hh, ha]
      exact hrec
    | exn =>
      simp [safeRequestGo, hh]
      exact hrec

/-- C5: for every call of `safe_request` with retry budget `retries`, the
number of HTTP attempts never exceeds `retries`; when every attempt in the
budget fails (non-200 response or transport error), the call fails with the
`FetchError` carrying the URL and the attempt count instead of returning a
payload; and under the linear backoff policy with a nonnegative base, every
later attempt's computed backoff is at least the first attempt's. -/
theorem safe_request_retry_budget (url : String) (http : Nat → HttpResult)
    (retries : Nat) (backoff : ℚ) :
    (safe_request url http retries backoff).2.2 ≤ retries ∧
    ((∀ a, 1 ≤ a → a ≤ retries → isOk200 (http a) = false) →
      (safe_request url http retries backoff).1 =
        Except.error ⟨url, retries⟩) ∧
    (0 ≤ backoff → ∀ a : Nat, 1 ≤ a →
      linBackoff backoff 1 ≤ linBackoff backoff a) := by
  refine ⟨safeRequestGo_attempts_le url http retries backoff retries 1,
    ?_, ?_⟩
  · intro h
    exact safeRequestGo_allFail url http retries backoff retries 1
      (fun a h1 h2 => h a h1 (by omega))
  · intro hb a ha
    unfold linBackoff
    have h1 : ((1 : Nat) : ℚ) ≤ (a : ℚ) := by exact_mod_cast ha
    exact mul_le_mul_of_nonneg_left h1 hb

theorem safe_request_retry_budget_witness :
    (safe_request "https://api.polygon.io/v3/reference/tickers"
        (fun _ => HttpResult.exn) 5 2).2.2 ≤ 5 ∧
    (safe_request "https://api.polygon.io/v3/reference/tickers"
        (fun _ => HttpResult.exn) 5 2).1 =
      Except.error ⟨"https://api.polygon.io/v3/reference/tickers", 5⟩ ∧
    linBackoff 2 1 ≤ linBackoff 2 3 := by
  have h := safe_request_retry_budget
    "https://api.polygon.io/v3/reference/tickers"
    (fun _ => HttpResult.exn) 5 2
  exact ⟨h.1, h.2.1 (fun a _ _ => rfl), h.2.2 (by norm_num) 3 (by norm_num)⟩

/-- C2 counterexample: a `Retry-After` header of `"0"` parses as the integer
0, which is not positive; the claim therefore requires the fallback wait
`backoff * attempt = 2`, but the code uses the parsed hint and waits 0. -/
theorem wait429_zero_hint_counterexample :
    wait429 2 1 (some "0") = 0 ∧ wait429_claimed 2 1 (some "0") = 2 ∧
    wait429 2 1 (some "0") ≠ wait429_claimed 2 1 (some "0") := by
  have h : pyIntOfString "0" = some 0 := by decide
  refine ⟨by simp [wait429, h], ?_, ?_⟩
  · norm_num [wait429_claimed, h, linBackoff]
  · norm_num [wait429, wait429_claimed, h, linBackoff]

/-- C2 (amended): on a 429 response the wait before the next attempt equals
the server's `Retry-After` hint whenever the hint is present and parseable
as an integer — including zero or a negative integer — and otherwise equals
`backoff * attempt` (attempts numbered from 1); the first wait of a
`safe_request` run whose first attempt is rate-limited is exactly this
computed wait. -/
theorem wait429_server_hint (backoff : ℚ) (attempt : Nat) (s : String) :
    (∀ n : Int, pyIntOfString s = some n →
      wait429 backoff attempt (some s) = (n : ℚ)) ∧
    (pyIntOfString s = none →
      wait429 backoff attempt (some s) = linBackoff backoff attempt) ∧
    wait429 backoff attempt none = linBackoff backoff attempt ∧
    (∀ (url : String) (http : Nat → HttpResult) (retries : Nat)
        (ra : Option String) (body : Payload),
      1 ≤ retries → http 1 = HttpResult.response 429 ra body →
      (safe_request url http retries backoff).2.1.head? =
        some (wait429 backoff 1 ra)) := by
  refine ⟨?_, ?_, rfl, ?_⟩
  · intro n hn
    simp [wait429, hn]
  · intro hn
    simp [wait429, hn]
  · intro url http retries ra body hr hh
    cases retries with
    | zero => omega
    | succ r => simp [safe_request, safeRequestGo, hh]

theorem wait429_server_hint_witness :
    wait429 2 1 (some "7") = 7 ∧
    wait429 2 1 (some "abc") = linBackoff 2 1 ∧
    (safe_request "u"
        (fun _ => HttpResult.response 429 (some "7") ⟨none, none⟩)
        5 2).2.1.head? = some (wait429 2 1 (some "7")) := by
  have h7 := wait429_server_hint 2 1 "7"
  have habc := wait429_server_hint 2 1 "abc"
  refine ⟨?_, habc.2.1 (by decide), ?_⟩
  · have := h7.1 7 (by decide)
    simpa using this
  · exact h7.2.2.2 "u" (fun _ => HttpResult.response 429 (some "7")
      ⟨none, none⟩) 5 (some "7") ⟨none, none⟩ (by norm_num) rfl

theorem collectLoop_next_none (data : Payload) (acc : List Record)
    (f : Nat) (rest : List FetchResult) (hnu : data.next_url = none) :
    collectLoop data acc f rest = some (acc, f) := by
  cases rest with
  | nil => rw [collectLoop]; simp [hnu]
  | cons r rest' =>
    cases r with
    | fail => rw [collectLoop]; simp [hnu]
    | ok d => rw [collectLoop]; simp [hnu]

/-- C1: when a later-page fetch fails after exhausting its retries, the
pagination loop stops and `collect_tickers` returns exactly the records
accumulated from the pages fetched before the failure, without raising; in
particular a run whose first page yields its records and whose second fetch
fails returns exactly the first page's records. -/
theorem walker_partial_results :
    (∀ (data : Payload) (acc : List Record) (f : Nat) (u : String)
        (rest : List FetchResult),
      data.next_url = some u →
      collectLoop data acc f (FetchResult.fail :: rest) = some (acc, f + 1)) ∧
    (∀ (rs : List Record) (u : String) (rest : List FetchResult),
      collect_tickers true (FetchResult.ok ⟨some rs, some u⟩)
          (FetchResult.fail :: rest) = some (rs, 2)) := by
  constructor
  · intro data acc f u rest hnu
    rw [collectLoop]
    simp [hnu]
  · intro rs u rest
    simp [collect_tickers, collectLoop]

theorem walker_partial_results_witness :
    collect_tickers true
        (FetchResult.ok ⟨some (List.replicate 1000 [("ticker",
          Value.str "A")]), some "u"⟩) [FetchResult.fail] =
      some (List.replicate 1000 [("ticker", Value.str "A")], 2) ∧
    collectLoop ⟨none, some "u"⟩ [] 1 [FetchResult.fail] = some ([], 2) :=
  ⟨walker_partial_results.2 (List.replicate 1000 [("ticker",
      Value.str "A")]) "u" [],
   walker_partial_results.1 ⟨none, some "u"⟩ [] 1 "u" [] rfl⟩

/-- C3: when the very first fetch fails with the retry budget exhausted,
`collect_tickers` catches the escape and returns the empty record list
(after exactly that one failed fetch) instead of propagating the error. -/
theorem walker_first_fetch_failure (rest : List FetchResult) :
    collect_tickers true FetchResult.fail rest = some ([], 1) := by
  simp [collect_tickers]

/-- C4 counterexample: a first page whose payload has a continuation
reference but no `results` key does NOT terminate pagination — the walker
fetches a second page (2 fetches, and it returns the second page's records
rather than the nothing collected up to the malformed page), refuting the
claim's "including the first page". -/
theorem walker_first_page_missing_results_counterexample :
    ¬ (∀ (first : Payload) (rest : List FetchResult)
        (out : List Record × Nat),
        first.results = none →
        collect_tickers true (FetchResult.ok first) rest = some out →
        out.2 = 1 ∧ out.1 = []) := by
  intro h
  have := h ⟨none, some "u"⟩
      [FetchResult.ok ⟨some [[("ticker", Value.str "A")]], none⟩]
      ([[("ticker", Value.str "A")]], 2) rfl (by decide)
  simp at this

/-- C4 (amended): pagination terminates when a page's payload has no
continuation reference; a later (non-first) page payload missing the
`results` key also terminates pagination, keeping the records collected so
far; a first page missing `results` merely contributes no records, and
pagination continues when its continuation reference is present. -/
theorem walker_termination :
    (∀ (data : Payload) (acc : List Record) (f : Nat)
        (rest : List FetchResult),
      data.next_url = none → collectLoop data acc f rest = some (acc, f)) ∧
    (∀ (data d : Payload) (acc : List Record) (f : Nat) (u : String)
        (rest : List FetchResult),
      data.next_url = some u → d.results = none →
      collectLoop data acc f (FetchResult.ok d :: rest) =
        some (acc, f + 1)) ∧
    (∀ (u : String) (rs : List Record) (rest : List FetchResult),
      collect_tickers true (FetchResult.ok ⟨none, some u⟩)
          (FetchResult.ok ⟨some rs, none⟩ :: rest) = some (rs, 2)) := by
  refine ⟨?_, ?_, ?_⟩
  · intro data acc f rest hnu
    exact collectLoop_next_none data acc f rest hnu
  · intro data d acc f u rest hnu hres
    rw [collectLoop]
    simp [hnu, hres]
  · intro u rs rest
    show collectLoop ⟨some rs, none⟩ ([] ++ rs) 2 rest = some (rs, 2)
    rw [collectLoop_next_none _ _ _ _ rfl]
    simp

theorem walker_termination_witness :
    collectLoop ⟨some [], none⟩ [] 1 [] = some ([], 1) ∧
    collectLoop ⟨none, some "u"⟩ [] 1 [FetchResult.ok ⟨none, some "v"⟩] =
      some ([], 2) ∧
    collect_tickers true (FetchResult.ok ⟨none, some "u"⟩)
        [FetchResult.ok ⟨some [[("ticker", Value.str "A")]], none⟩] =
      some ([[("ticker", Value.str "A")]], 2) :=
  ⟨walker_termination.1 ⟨some [], none⟩ [] 1 [] rfl,
   walker_termination.2.1 ⟨none, some "u"⟩ ⟨none, some "v"⟩ [] 1 "u" []
     rfl rfl,
   walker_termination.2.2 "u" [[("ticker", Value.str "A")]] []⟩

/-- C6 counterexample: a record with the cik field absent gets a null cik
value in its row but no conversion warning is logged, although the claim
requires a warning in the empty/absent case too. -/
theorem transform_absent_cik_no_warning :
    ¬ (∀ r : Record, recGet r "cik" = Value.null →
        (transformRecord r).2 = true) := by
  intro h
  exact absurd (h [("ticker", Value.str "AAPL")] (by decide)) (by decide)

/-- C6 (amended): each record's row lists, in the field mapping's iteration
order, the raw value of every field (null when absent) except `cik`; the
`cik` output is an integer or null; a falsy (empty/absent) raw cik value
yields null with NO warning, while a truthy raw value that fails integer
conversion yields null WITH a warning; a record's warning flag is exactly
the cik coercion's, so the transformation of a batch never aborts. -/
theorem transform_row_shape (r : Record) :
    (transformRecord r).1 =
      [recGet r "ticker", recGet r "name", recGet r "market",
       recGet r "locale", recGet r "primary_exchange", recGet r "type",
       recGet r "active", recGet r "currency_name",
       (coerceCik (recGet r "cik")).1, recGet r "composite_figi",
       recGet r "share_class_figi", recGet r "last_updated_utc"] ∧
    ((coerceCik (recGet r "cik")).1 = Value.null ∨
      ∃ n : Int, (coerceCik (recGet r "cik")).1 = Value.int n) ∧
    (pyTruthy (recGet r "cik") = false →
      coerceCik (recGet r "cik") = (Value.null, false)) ∧
    (pyTruthy (recGet r "cik") = true →
      pyIntOfValue (recGet r "cik") = none →
      coerceCik (recGet r "cik") = (Value.null, true)) ∧
    (transformRecord r).2 = (coerceCik (recGet r "cik")).2 := by
  refine ⟨by rw [transformRecord_unfold], ?_, ?_, ?_,
    by rw [transformRecord_unfold]⟩
  · cases h : pyTruthy (recGet r "cik") with
    | false => exact Or.inl (by simp [coerceCik, h])
    | true =>
      cases hp : pyIntOfValue (recGet r "cik") with
      | none => exact Or.inl (by simp [coerceCik, h, hp])
      | some n => exact Or.inr ⟨n, by simp [coerceCik, h, hp]⟩
  · intro h
    simp [coerceCik, h]
  · intro h hp
    simp [coerceCik, h, hp]

theorem transform_row_shape_witness :
    coerceCik (recGet [("cik", Value.str "")] "cik") =
      (Value.null, false) ∧
    coerceCik (recGet [("cik", Value.str "not-a-number")] "cik") =
      (Value.null, true) ∧
    (transformRecord [("cik", Value.str "not-a-number")]).2 =
      (coerceCik (recGet [("cik", Value.str "not-a-number")] "cik")).2 :=
  ⟨(transform_row_shape [("cik", Value.str "")]).2.2.1 (by decide),
   (transform_row_shape [("cik", Value.str "not-a-number")]).2.2.2.1
     (by decide) (by decide),
   (transform_row_shape [("cik", Value.str "not-a-number")]).2.2.2.2⟩

/-- C10: whenever the raw cik value is falsy (the integer 0, the empty
string, False, or null — the latter also standing for an absent field), the
coercion outputs null without logging a conversion warning, so the null
fallback applies to every falsy value, not only to absent values or failed
string conversions. -/
theorem cik_falsy_null_no_warning (r : Record)
    (h : pyTruthy (recGet r "cik") = false) :
    coerceCik (recGet r "cik") = (Value.null, false) ∧
    (transformRecord r).2 = false := by
  have hc : coerceCik (recGet r "cik") = (Value.null, false) := by
    simp [coerceCik, h]
  refine ⟨hc, ?_⟩
  rw [transformRecord_unfold]
  simp [hc]

theorem cik_falsy_null_no_warning_witness :
    coerceCik (recGet [("cik", Value.int 0)] "cik") =
      (Value.null, false) ∧
    (transformRecord [("cik", Value.int 0)]).2 = false :=
  cik_falsy_null_no_warning [("cik", Value.int 0)] (by decide)

/-- A fully populated Snowflake configuration, for concrete witnesses. -/
def demoConfig : SnowflakeConfig :=
  ⟨some "acct", some "user", some "pw", some "wh", some "db", some "sch",
   some "role"⟩

/-- The same configuration with the warehouse parameter absent. -/
def noWarehouseConfig : SnowflakeConfig :=
  ⟨some "acct", some "user", some "pw", none, some "db", some "sch",
   some "role"⟩

/-- A concrete ticker record, for concrete witnesses. -/
def demoRecord : Record :=
  [("ticker", Value.str "AAPL"), ("cik", Value.str "0000320193")]

/-- C7: a sink-level error during connection, truncate, or a batch insert
aborts the load with the underlying error detail reported, no commit on
that exit path, and the connection closed whenever one was acquired (after
a connection failure there is no acquired connection to release). -/
theorem loader_sink_error_handling (cfg : SnowflakeConfig) (table : String)
    (tickers : List Record) (msg : String) (k : Nat)
    (h1 : tickers ≠ []) (h2 : missingVars cfg table = []) :
    write_to_snowflake cfg table tickers (SinkFailure.failConnect msg) =
      [Event.errLoad msg] ∧
    write_to_snowflake cfg table tickers (SinkFailure.failTruncate msg) =
      [Event.op SinkOp.connect, Event.errLoad msg, Event.op SinkOp.close] ∧
    (k < (chunkList batch_size (dataToInsert tickers)).length →
      Event.errLoad msg ∈ write_to_snowflake cfg table tickers
          (SinkFailure.failInsertAt k msg) ∧
      Event.op SinkOp.commit ∉ write_to_snowflake cfg table tickers
          (SinkFailure.failInsertAt k msg) ∧
      Event.op SinkOp.close ∈ write_to_snowflake cfg table tickers
          (SinkFailure.failInsertAt k msg)) := by
  refine ⟨by simp [write_to_snowflake, h1, h2], by
    simp [write_to_snowflake, h1, h2], ?_⟩
  intro hk
  simp [write_to_snowflake, h1, h2, hk]
  intro hmem
  rcases List.mem_map.mp (List.mem_of_mem_take hmem) with ⟨b, _, hb⟩
  simp at hb

theorem loader_sink_error_handling_witness :
    write_to_snowflake demoConfig "TICKERS_TABLE" [demoRecord]
        (SinkFailure.failConnect "boom") = [Event.errLoad "boom"] ∧
    write_to_snowflake demoConfig "TICKERS_TABLE" [demoRecord]
        (SinkFailure.failTruncate "boom") =
      [Event.op SinkOp.connect, Event.errLoad "boom",
       Event.op SinkOp.close] ∧
    (Event.errLoad "boom" ∈ write_to_snowflake demoConfig "TICKERS_TABLE"
        [demoRecord] (SinkFailure.failInsertAt 0 "boom") ∧
      Event.op SinkOp.commit ∉ write_to_snowflake demoConfig "TICKERS_TABLE"
        [demoRecord] (SinkFailure.failInsertAt 0 "boom") ∧
      Event.op SinkOp.close ∈ write_to_snowflake demoConfig "TICKERS_TABLE"
        [demoRecord] (SinkFailure.failInsertAt 0 "boom")) := by
  have h := loader_sink_error_handling demoConfig "TICKERS_TABLE"
    [demoRecord] "boom" 0 (by decide) (by decide)
  exact ⟨h.1, h.2.1, h.2.2 (by
    simp [chunkList, batch_size, dataToInsert])⟩

/-- C8: an empty row sequence makes the loader log the warning and perform
zero sink operations (no connection, truncate, or insert), and a missing
required connection parameter makes it report exactly the missing names and
perform no sink operation — in particular no connection attempt. -/
theorem loader_preconditions (cfg : SnowflakeConfig) (table : String)
    (tickers : List Record) (fault : SinkFailure) :
    (tickers = [] →
      write_to_snowflake cfg table tickers fault = [Event.warnNoTickers] ∧
      ∀ o : SinkOp, Event.op o ∉ write_to_snowflake cfg table tickers
        fault) ∧
    (tickers ≠ [] → missingVars cfg table ≠ [] →
      write_to_snowflake cfg table tickers fault =
        [Event.errMissingVars (missingVars cfg table)] ∧
      ∀ o : SinkOp, Event.op o ∉ write_to_snowflake cfg table tickers
        fault) := by
  constructor
  · intro h
    have ht : write_to_snowflake cfg table tickers fault =
        [Event.warnNoTickers] := by simp [write_to_snowflake, h]
    exact ⟨ht, by simp [ht]⟩
  · intro h1 h2
    have ht : write_to_snowflake cfg table tickers fault =
        [Event.errMissingVars (missingVars cfg table)] := by
      simp [write_to_snowflake, h1, h2]
    exact ⟨ht, by simp [ht]⟩

theorem loader_preconditions_witness :
    write_to_snowflake demoConfig "TICKERS_TABLE" [] SinkFailure.noFail =
      [Event.warnNoTickers] ∧
    write_to_snowflake noWarehouseConfig "TICKERS_TABLE" [demoRecord]
        SinkFailure.noFail = [Event.errMissingVars ["warehouse"]] := by
  refine ⟨((loader_preconditions demoConfig "TICKERS_TABLE" []
    SinkFailure.noFail).1 rfl).1, ?_⟩
  have h := ((loader_preconditions noWarehouseConfig "TICKERS_TABLE"
    [demoRecord] SinkFailure.noFail).2 (by decide) (by decide)).1
  rw [h]
  have hm : missingVars noWarehouseConfig "TICKERS_TABLE" =
      ["warehouse"] := by decide
  rw [hm]

/-- C9: the fault-free load stage (truncate, batched inserts, commit) is
idempotent per run: for every non-empty input and every initial committed
table state, running it twice yields the same final committed contents as
running it once, namely exactly the transformed rows. -/
theorem load_stage_idempotent (cfg : SnowflakeConfig) (table : String)
    (tickers : List Record) (t0 : List Row)
    (h1 : tickers ≠ []) (h2 : missingVars cfg table = []) :
    loadStage cfg table tickers (loadStage cfg table tickers t0) =
      loadStage cfg table tickers t0 ∧
    loadStage cfg table tickers t0 = dataToInsert tickers := by
  have h := loadStage_eq cfg table tickers t0 h1 h2
  have h' := loadStage_eq cfg table tickers
    (loadStage cfg table tickers t0) h1 h2
  exact ⟨by rw [h', h], h⟩

theorem load_stage_idempotent_witness :
    loadStage demoConfig "TICKERS_TABLE" [demoRecord]
        (loadStage demoConfig "TICKERS_TABLE" [demoRecord] []) =
      loadStage demoConfig "TICKERS_TABLE" [demoRecord] [] ∧
    loadStage demoConfig "TICKERS_TABLE" [demoRecord] [] =
      dataToInsert [demoRecord] :=
  load_stage_idempotent demoConfig "TICKERS_TABLE" [demoRecord] []
    (by decide) (by decide)
